import Mathlib

/-!
Verification development for the KanAIRY trading backend.

The development shallowly embeds the backend's Python modules:
  * `Encryption` — `backend/encryption.py` (AES-256-GCM password storage,
    base64-armoured outputs).  The AEAD primitive itself is supplied by the
    `cryptography` library, so it is modelled as a parameter (`AEAD`)
    carrying the standard AEAD round-trip contract; the base64 armouring,
    which the module applies itself, is embedded concretely.
  * `MetaApi` — `backend/metaapi_client.py` (session cache plus the
    connect/deploy/synchronize sequence and the trade facade).  The MetaAPI
    SDK is external, so each SDK call is a field of an environment record
    giving that call's outcome; every operation also returns the list of
    SDK calls it issued.
  * `Appwrite` — `backend/appwrite_client.py` (document-store gateway).
  * `Main` — `backend/main.py` (HTTP handlers).

Monetary quantities (balance, equity, prices, volumes) are Python floats in
the source; the backend only passes them through without arithmetic, so they
are modelled as `Int`.
-/

namespace Encryption

/-- The base64 alphabet, positions 0–63 (RFC 4648), as used by
`base64.b64encode`/`b64decode` in `encryption.py`. -/
def b64Alphabet : List Char :=
  ['A', 'B', 'C', 'D', 'E', 'F', 'G', 'H', 'I', 'J', 'K', 'L', 'M',
   'N', 'O', 'P', 'Q', 'R', 'S', 'T', 'U', 'V', 'W', 'X', 'Y', 'Z',
   'a', 'b', 'c', 'd', 'e', 'f', 'g', 'h', 'i', 'j', 'k', 'l', 'm',
   'n', 'o', 'p', 'q', 'r', 's', 't', 'u', 'v', 'w', 'x', 'y', 'z',
   '0', '1', '2', '3', '4', '5', '6', '7', '8', '9', '+', '/']

/-- Character encoding a six-bit group. -/
def sextetChar (n : Nat) : Char := b64Alphabet.getD n '='

/-- Index of a character in the base64 alphabet. -/
def charSextet (c : Char) : Option Nat := b64Alphabet.findIdx? (· == c)

/-- Base64 encoding of a byte list (bytes are `Nat` values below 256),
including `=` padding, as produced by `base64.b64encode`. -/
def b64encode : List Nat → List Char
  | a :: b :: c :: rest =>
      sextetChar (a / 4) :: sextetChar (a % 4 * 16 + b / 16) ::
      sextetChar (b % 16 * 4 + c / 64) :: sextetChar (c % 64) :: b64encode rest
  | [a, b] => [sextetChar (a / 4), sextetChar (a % 4 * 16 + b / 16),
               sextetChar (b % 16 * 4), '=']
  | [a] => [sextetChar (a / 4), sextetChar (a % 4 * 16), '=', '=']
  | [] => []

/-- Base64 decoding (`base64.b64decode` on well-formed input; malformed
input yields `none`, matching the `binascii.Error` raise path). -/
def b64decode : List Char → Option (List Nat)
  | [] => some []
  | c0 :: c1 :: c2 :: c3 :: rest =>
      match charSextet c0, charSextet c1 with
      | some s0, some s1 =>
          if c2 = '=' then
            if c3 = '=' ∧ rest = [] then some [s0 * 4 + s1 / 16] else none
          else
            match charSextet c2 with
            | some s2 =>
                if c3 = '=' then
                  if rest = [] then
                    some [s0 * 4 + s1 / 16, s1 % 16 * 16 + s2 / 4]
                  else none
                else
                  match charSextet c3, b64decode rest with
                  | some s3, some tail =>
                      some ((s0 * 4 + s1 / 16) :: (s1 % 16 * 16 + s2 / 4) ::
                            (s2 % 4 * 64 + s3) :: tail)
                  | _, _ => none
            | none => none
      | _, _ => none
  | _ => none

/-- The AES-256-GCM primitive used by `encryption.py` through the
`cryptography` library, with the derived key baked in (the module derives a
single process-wide `ENCRYPTION_KEY`).  `enc iv plaintext` returns
`(ciphertext, tag)`; `dec iv tag ciphertext` returns the plaintext or fails
(`InvalidTag`).  Plaintext byte conversion (`str.encode`/`bytes.decode`) is
folded into the primitive. -/
structure AEAD where
  enc : List Nat → String → List Nat × List Nat
  dec : List Nat → List Nat → List Nat → Option String

/-- Contract of an AEAD cipher: decryption inverts encryption under the
matching nonce and tag, and ciphertext/tag are byte strings. -/
structure AEAD.Correct (g : AEAD) : Prop where
  roundtrip : ∀ iv pt, g.dec iv (g.enc iv pt).2 (g.enc iv pt).1 = some pt
  ct_bytes : ∀ iv pt, ∀ x ∈ (g.enc iv pt).1, x < 256
  tag_bytes : ∀ iv pt, ∀ x ∈ (g.enc iv pt).2, x < 256

/-- Result dict of `encrypt_password`. -/
structure EncryptedPayload where
  encrypted : String
  iv : String
  auth_tag : String
  deriving Repr, DecidableEq

/-- Model of `encrypt_password` (`encryption.py` lines 32–56).  The random
IV drawn by `os.urandom(16)` is passed explicitly. -/
def encrypt_password (g : AEAD) (iv : List Nat) (password : String) : EncryptedPayload :=
  let ct := (g.enc iv password).1
  let tag := (g.enc iv password).2
  { encrypted := String.mk (b64encode ct)
    iv := String.mk (b64encode iv)
    auth_tag := String.mk (b64encode tag) }

/-- Model of `decrypt_password` (`encryption.py` lines 58–80); `none`
models the raised exception (bad base64 or tag verification failure). -/
def decrypt_password (g : AEAD) (encrypted iv auth_tag : String) : Option String :=
  match b64decode encrypted.data, b64decode iv.data, b64decode auth_tag.data with
  | some ct, some ivBytes, some tag => g.dec ivBytes tag ct
  | _, _, _ => none

/-- Concrete executable AEAD instance used to witness `c1_encrypt_then_decrypt`
on a concrete input: each plaintext character becomes three big-endian bytes,
the tag is empty. -/
def charBytes (c : Char) : List Nat := [c.toNat / 65536, c.toNat / 256 % 256, c.toNat % 256]

def encBytes : List Char → List Nat
  | [] => []
  | c :: cs => charBytes c ++ encBytes cs

def decBytes : List Nat → Option (List Char)
  | [] => some []
  | b0 :: b1 :: b2 :: rest =>
      match decBytes rest with
      | some cs => some (Char.ofNat (b0 * 65536 + b1 * 256 + b2) :: cs)
      | none => none
  | _ => none

def toyAEAD : AEAD where
  enc := fun _ pt => (encBytes pt.data, [])
  dec := fun _ tag ct =>
    if tag = [] then (decBytes ct).map (fun cs => String.mk cs) else none

end Encryption

namespace MetaApi

/-- A MetaTrader account record held in the MetaAPI account registry
(the objects returned by `metatrader_account_api.get_accounts`). -/
structure RegAccount where
  id : String
  login : String
  server : String
  deriving Repr, DecidableEq

/-- The dict returned by `connection.get_account_information()`; optional
fields model keys read through `.get(..., default)`. -/
structure AccountInfo where
  balance : Int
  equity : Int
  margin : Option Int
  freeMargin : Option Int
  currency : Option String
  leverage : Option Int
  name : Option String
  deriving Repr, DecidableEq

/-- Result of an order-creation SDK call
(`create_market_buy_order` / `create_market_sell_order`). -/
structure TradeResult where
  orderId : Option String
  positionId : Option String
  openPrice : Option Int
  price : Option Int
  deriving Repr, DecidableEq

/-- Result of `connection.close_position`. -/
structure CloseResult where
  closePrice : Option Int
  profit : Option Int
  pl : Option Int
  deriving Repr, DecidableEq

/-- Outcome environment for the MetaAPI SDK: each field is the outcome the
external SDK produces if the corresponding call is issued (`Except.error`
models a raised exception with its message). -/
structure MTEnv where
  getAccounts : Except String (List RegAccount)
  createAccount : Except String RegAccount
  deploy : Except String Unit
  waitDeployed : Except String Unit
  waitConnected : Except String Unit
  rpcConnect : Except String Unit
  waitSynchronized : Except String Unit
  getAccountInformation : Except String AccountInfo
  marketBuy : Except String TradeResult
  marketSell : Except String TradeResult
  closePos : Except String CloseResult
  positionsList : Except String (List String)

/-- One SDK call issued by the client; traces of these record what a run of
the Python code did. -/
inductive MTEvent
  | getAccountsCall
  | createAccountCall (login password server platform : String)
  | deployCall
  | waitDeployedCall
  | waitConnectedCall
  | rpcConnectCall
  | waitSynchronizedCall
  | accountInfoCall
  | marketBuyOrder (symbol : String) (volume : Int) (sl tp : Option Int)
  | marketSellOrder (symbol : String) (volume : Int) (sl tp : Option Int)
  | closePositionCall (positionId : String)
  | getPositionsCall
  deriving Repr, DecidableEq

/-- An entry of `self.accounts`: the cached `{'account': ..., 'connection': ...}`
pair (the live connection handle is opaque). -/
structure Session where
  account : RegAccount
  deriving Repr, DecidableEq

/-- The session cache `self.accounts`, keyed by login (a Python dict;
lookup returns the most recent binding). -/
abbrev SessionCache := List (String × Session)

/-- Errors raised by the trade-facade methods, separating the
"Account not connected" raise sites from re-raised upstream SDK failures. -/
inductive MTError
  | notConnected (msg : String)
  | upstream (msg : String)
  deriving Repr, DecidableEq

/-- Message wrapper applied by the `except` clause of `connect_account`
(`metaapi_client.py` line 107). -/
def connFail (m : String) : String := "MetaAPI connection failed: " ++ m

/-- The dict returned by a successful `connect_account`
(`metaapi_client.py` lines 95–103). -/
structure ConnectInfo where
  balance : Int
  equity : Int
  margin : Int
  freeMargin : Int
  currency : String
  leverage : Int
  name : String
  deriving Repr, DecidableEq

/-- Steps of `connect_account` after the account record is in hand
(`metaapi_client.py` lines 58–103): deploy, wait-deployed, wait-connected,
RPC connect, wait-synchronized, account-info fetch, then caching under the
login key.  `evs` are the SDK calls already issued. -/
def connect_rest (env : MTEnv) (cache : SessionCache) (login : String)
    (account : RegAccount) (evs : List MTEvent) :
    Except String ConnectInfo × SessionCache × List MTEvent :=
  match env.deploy with
  | .error m => (.error (connFail m), cache, evs ++ [.deployCall])
  | .ok _ =>
      match env.waitDeployed with
      | .error m => (.error (connFail m), cache, evs ++ [.deployCall, .waitDeployedCall])
      | .ok _ =>
          match env.waitConnected with
          | .error m =>
              (.error (connFail m), cache,
               evs ++ [.deployCall, .waitDeployedCall, .waitConnectedCall])
          | .ok _ =>
              match env.rpcConnect with
              | .error m =>
                  (.error (connFail m), cache,
                   evs ++ [.deployCall, .waitDeployedCall, .waitConnectedCall, .rpcConnectCall])
              | .ok _ =>
                  match env.waitSynchronized with
                  | .error m =>
                      (.error (connFail m), cache,
                       evs ++ [.deployCall, .waitDeployedCall, .waitConnectedCall,
                               .rpcConnectCall, .waitSynchronizedCall])
                  | .ok _ =>
                      match env.getAccountInformation with
                      | .error m =>
                          (.error (connFail m), cache,
                           evs ++ [.deployCall, .waitDeployedCall, .waitConnectedCall,
                                   .rpcConnectCall, .waitSynchronizedCall, .accountInfoCall])
                      | .ok info =>
                          (.ok { balance := info.balance
                                 equity := info.equity
                                 margin := info.margin.getD 0
                                 freeMargin := info.freeMargin.getD 0
                                 currency := info.currency.getD "USD"
                                 leverage := info.leverage.getD 100
                                 name := info.name.getD login },
                           (login, { account := account }) :: cache,
                           evs ++ [.deployCall, .waitDeployedCall, .waitConnectedCall,
                                   .rpcConnectCall, .waitSynchronizedCall, .accountInfoCall])

/-- Model of `MetaAPIClient.connect_account` (`metaapi_client.py` lines
17–107): registry lookup, optional account creation, then `connect_rest`.
Returns (outcome, new cache, SDK calls issued); the `Except.error` outcome is
the `Exception` re-raised by the method's `except` clause. -/
def connect_account (env : MTEnv) (cache : SessionCache)
    (login password server platform : String) :
    Except String ConnectInfo × SessionCache × List MTEvent :=
  match env.getAccounts with
  | .error m => (.error (connFail m), cache, [.getAccountsCall])
  | .ok regs =>
      match regs.find? (fun a => a.login == login && a.server == server) with
      | some account => connect_rest env cache login account [.getAccountsCall]
      | none =>
          match env.createAccount with
          | .error m =>
              (.error (connFail m), cache,
               [.getAccountsCall, .createAccountCall login password server platform])
          | .ok account =>
              connect_rest env cache login account
                [.getAccountsCall, .createAccountCall login password server platform]

/-- Python `str.lower()` (ASCII case fold, as applied to the order side). -/
def pyLower (s : String) : String := String.mk (s.data.map Char.toLower)

/-- Model of `MetaAPIClient.place_trade` (`metaapi_client.py` lines 129–173). -/
def place_trade (env : MTEnv) (cache : SessionCache) (account_login symbol : String)
    (volume : Int) (action_type : String) (stop_loss take_profit : Option Int) :
    Except MTError TradeResult × SessionCache × List MTEvent :=
  match cache.lookup account_login with
  | none => (.error (.notConnected "Account not connected"), cache, [])
  | some _ =>
      if pyLower action_type == "buy" then
        match env.marketBuy with
        | .ok r => (.ok r, cache, [.marketBuyOrder symbol volume stop_loss take_profit])
        | .error m => (.error (.upstream m), cache,
                       [.marketBuyOrder symbol volume stop_loss take_profit])
      else
        match env.marketSell with
        | .ok r => (.ok r, cache, [.marketSellOrder symbol volume stop_loss take_profit])
        | .error m => (.error (.upstream m), cache,
                       [.marketSellOrder symbol volume stop_loss take_profit])

/-- The dict returned by `MetaAPIClient.get_account_info`
(`metaapi_client.py` lines 118–124). -/
structure FacadeAccountInfo where
  balance : Int
  equity : Int
  margin : Int
  freeMargin : Int
  currency : String
  deriving Repr, DecidableEq

/-- Model of `MetaAPIClient.get_account_info` (`metaapi_client.py` lines
109–127). -/
def get_account_info (env : MTEnv) (cache : SessionCache) (login : String) :
    Except MTError FacadeAccountInfo × SessionCache × List MTEvent :=
  match cache.lookup login with
  | none => (.error (.notConnected "Account not connected. Please connect first."), cache, [])
  | some _ =>
      match env.getAccountInformation with
      | .ok info => (.ok { balance := info.balance
                           equity := info.equity
                           margin := info.margin.getD 0
                           freeMargin := info.freeMargin.getD 0
                           currency := info.currency.getD "USD" },
                     cache, [.accountInfoCall])
      | .error m => (.error (.upstream m), cache, [.accountInfoCall])

/-- Model of `MetaAPIClient.get_positions` (`metaapi_client.py` lines
175–188); the returned position objects are opaque and stand in as strings. -/
def get_positions (env : MTEnv) (cache : SessionCache) (account_login : String) :
    Except MTError (List String) × SessionCache × List MTEvent :=
  match cache.lookup account_login with
  | none => (.error (.notConnected "Account not connected"), cache, [])
  | some _ =>
      match env.positionsList with
      | .ok ps => (.ok ps, cache, [.getPositionsCall])
      | .error m => (.error (.upstream m), cache, [.getPositionsCall])

/-- Model of `MetaAPIClient.close_position` (`metaapi_client.py` lines
190–206). -/
def close_position (env : MTEnv) (cache : SessionCache)
    (account_login position_id : String) :
    Except MTError CloseResult × SessionCache × List MTEvent :=
  match cache.lookup account_login with
  | none => (.error (.notConnected "Account not connected"), cache, [])
  | some _ =>
      match env.closePos with
      | .ok r => (.ok r, cache, [.closePositionCall position_id])
      | .error m => (.error (.upstream m), cache, [.closePositionCall position_id])

/-- Events belonging to the deploy/connect/synchronize sequence (the
session-establishment work of `connect_account`, including account creation). -/
def isSetupEvent : MTEvent → Bool
  | .getAccountsCall => true
  | .createAccountCall _ _ _ _ => true
  | .deployCall => true
  | .waitDeployedCall => true
  | .waitConnectedCall => true
  | .rpcConnectCall => true
  | .waitSynchronizedCall => true
  | .accountInfoCall => true
  | _ => false

/-- Concrete SDK environments for evaluating the model on concrete inputs. -/
def okReg : RegAccount := { id := "ma1", login := "100200", server := "Demo-1" }

def okInfo : AccountInfo :=
  { balance := 1000, equity := 995, margin := some 10, freeMargin := some 985,
    currency := some "USD", leverage := some 100, name := some "Demo" }

def okTrade : TradeResult :=
  { orderId := some "o1", positionId := some "p1", openPrice := some 10850, price := none }

def okClose : CloseResult := { closePrice := some 10900, profit := some 50, pl := none }

def envAllOk : MTEnv :=
  { getAccounts := .ok [okReg], createAccount := .ok okReg, deploy := .ok (),
    waitDeployed := .ok (), waitConnected := .ok (), rpcConnect := .ok (),
    waitSynchronized := .ok (), getAccountInformation := .ok okInfo,
    marketBuy := .ok okTrade, marketSell := .ok okTrade, closePos := .ok okClose,
    positionsList := .ok [] }

def envFailAtStart : MTEnv := { envAllOk with getAccounts := .error "boom" }

def envTradeFail : MTEnv :=
  { envAllOk with marketBuy := .error "bad", marketSell := .error "bad" }

end MetaApi


namespace Appwrite

/-- A JSON scalar inside a document returned by the Appwrite REST API. -/
inductive JVal
  | s (v : String)
  | n (v : Int)
  | b (v : Bool)
  deriving Repr, DecidableEq

/-- A raw document: the Python dict returned by `_make_request`. -/
abbrev Doc := List (String × JVal)

/-- Model of `AppwriteClient._make_request` (`appwrite_client.py` lines
39–63): the transport outcome is a parameter; a `requests` exception is
caught and turned into the structured payload `{"error": str(e)}` instead of
being raised. -/
def make_request (outcome : Except String Doc) : Doc :=
  match outcome with
  | .ok d => d
  | .error e => [("error", JVal.s e)]

/-- Model of `AppwriteClient.get_user_by_id` (`appwrite_client.py` lines
240–245): it returns whatever `_make_request` returns; since `_make_request`
never raises, the `except: return None` branch is unreachable. -/
def get_user_by_id (outcome : Except String Doc) : Option Doc :=
  some (make_request outcome)

/-- A well-formed User document (`users` collection schema,
`appwrite_client.py` lines 88–104 plus the generated `$id`). -/
structure UserDoc where
  id : String
  broker_account : String
  encrypted_password : String
  iv : String
  auth_tag : String
  server : String
  broker : String
  account_type : String
  balance : Int
  equity : Int
  currency : String
  last_login : Option String
  deriving Repr, DecidableEq

/-- A well-formed Position document (`positions` collection schema plus the
generated `$id`). -/
structure PositionDoc where
  id : String
  user_id : String
  symbol : String
  type : String
  volume : Int
  open_price : Int
  current_price : Int
  stop_loss : Option Int
  take_profit : Option Int
  profit : Int
  status : String
  broker_position_id : String
  opened_at : String
  closed_at : Option String
  deriving Repr, DecidableEq

/-- The document store, holding well-formed documents (the typed view used
by the handlers; a store transport failure is modelled separately through
`make_request`). -/
structure Store where
  users : List UserDoc
  positions : List PositionDoc
  deriving Repr, DecidableEq

/-- Model of `AppwriteClient.get_user_by_broker_account` (`appwrite_client.py`
lines 226–238) against a store that answers the two equality filters
faithfully: the first document matching (broker_account, server). -/
def get_user_by_broker_account (store : Store) (broker_account server : String) :
    Option UserDoc :=
  store.users.find? (fun u => u.broker_account == broker_account && u.server == server)

/-- Model of `AppwriteClient.create_user` (POST of a new document; the store
generates the id, supplied here as `newId`). -/
def create_user (store : Store) (newUser : UserDoc) : Store :=
  { store with users := store.users ++ [newUser] }

/-- Model of `AppwriteClient.update_user` for the field patches issued by
`main.py` (balance, equity and optionally last_login). -/
def update_user (store : Store) (user_id : String) (balance equity : Int)
    (last_login : Option String) : Store :=
  { store with
    users := store.users.map (fun u =>
      if u.id == user_id then
        { u with balance := balance, equity := equity,
                 last_login := match last_login with
                               | some t => some t
                               | none => u.last_login }
      else u) }

/-- Model of `AppwriteClient.create_position`. -/
def create_position (store : Store) (pos : PositionDoc) : Store :=
  { store with positions := store.positions ++ [pos] }

end Appwrite

namespace Main

/-- A Python exception as it reaches FastAPI from a handler:
`fastapi.HTTPException`, a generic `Exception(msg)`, or a `KeyError`. -/
inductive PyErr
  | httpExc (status : Nat) (detail : String)
  | pyExc (msg : String)
  | keyError (key : String)
  deriving Repr, DecidableEq

/-- Python `str(e)` for the exceptions above (`str` of a Starlette
`HTTPException` is "status: detail"; `str` of a `KeyError` is the quoted key). -/
def strOfErr : PyErr → String
  | .httpExc status detail => toString status ++ ": " ++ detail
  | .pyExc m => m
  | .keyError k => "'" ++ k ++ "'"

/-- HTTP status of the response FastAPI sends for a handler outcome: 200 on
a normal return, the exception status for an `HTTPException` (the
`http_exception_handler` at `main.py` lines 601–609), 500 for anything else
(the `general_exception_handler` at lines 611–619). -/
def finalStatus {a : Type} : Except PyErr a → Nat
  | .ok _ => 200
  | .error (.httpExc status _) => status
  | .error (.pyExc _) => 500
  | .error (.keyError _) => 500

/-- An `except Exception as e: raise HTTPException(500, detail=prefix+str(e))`
clause around a handler body.  It catches every exception — including an
`HTTPException` the body itself raised, since `HTTPException` subclasses
`Exception`. -/
def catchAll500 {a : Type} (detailPre : String) : Except PyErr a → Except PyErr a
  | .ok v => .ok v
  | .error e => .error (.httpExc 500 (detailPre ++ strOfErr e))

/-- Python `str.upper` / `str.capitalize` (ASCII view, enough for the order
side strings the handlers manipulate). -/
def pyUpper (s : String) : String := String.mk (s.data.map Char.toUpper)

def pyCapitalize (s : String) : String :=
  match s.data with
  | [] => ""
  | c :: rest => String.mk (c.toUpper :: rest.map Char.toLower)

/-- Request body of `POST /api/users/connect` (`models.py` `BrokerConnect`). -/
structure BrokerConnect where
  login : String
  password : String
  server : String
  broker : String
  account_type : String
  platform : String
  deriving Repr, DecidableEq

/-- Request body of `POST /api/trade` (`models.py` `TradeRequest`). -/
structure TradeRequest where
  user_id : String
  symbol : String
  volume : Int
  type : String
  stop_loss : Option Int
  take_profit : Option Int
  deriving Repr, DecidableEq

/-- Response model `AccountInfoResponse` (`models.py`). -/
structure AccountInfoResponse where
  user_id : String
  broker_account : String
  server : String
  balance : Int
  equity : Int
  margin : Int
  free_margin : Int
  currency : String
  deriving Repr, DecidableEq

/-- Response dict of `POST /api/trade` (`main.py` lines 366–375). -/
structure TradeResponse where
  success : Bool
  position_id : String
  broker_order_id : Option String
  broker_position_id : Option String
  symbol : String
  volume : Int
  price : Option Int
  message : String
  deriving Repr, DecidableEq

/-- Response model `UserResponse`, fields as raw JSON values (pydantic
coercion is outside the model). -/
structure UserResponse where
  id : Appwrite.JVal
  broker_account : Appwrite.JVal
  server : Appwrite.JVal
  broker : Appwrite.JVal
  account_type : Appwrite.JVal
  balance : Appwrite.JVal
  equity : Appwrite.JVal
  currency : Appwrite.JVal
  last_login : Option Appwrite.JVal
  deriving Repr, DecidableEq

/-- Store and trading-backend calls issued by a handler. -/
inductive OrchEvent
  | createUserDoc (login server : String)
  | metaConnect (login password server platform : String)
  | updateUserDoc (user_id : String)
  | createPositionDoc (position_id : String)
  deriving Repr, DecidableEq

/-- Python `str(e)` for the exceptions raised by the `MetaAPIClient` facade
methods (plain `Exception(msg)` in both cases). -/
def strOfMTError : MetaApi.MTError → String
  | .notConnected m => m
  | .upstream m => m

/-- Shared tail of `connect_broker` (`main.py` lines 187–218): call
`metaapi_client.connect_account`, persist the fresh balance/equity, and shape
the response. -/
def connect_and_update (env : MetaApi.MTEnv) (cache : MetaApi.SessionCache)
    (store : Appwrite.Store) (user_id pw now : String) (data : BrokerConnect)
    (evs : List OrchEvent) :
    Except PyErr AccountInfoResponse × Appwrite.Store × Option MetaApi.SessionCache
      × List OrchEvent :=
  match MetaApi.connect_account env cache data.login pw data.server data.platform with
  | (.error m, cache2, _) =>
      (.error (.pyExc m), store, some cache2,
       evs ++ [.metaConnect data.login pw data.server data.platform])
  | (.ok info, cache2, _) =>
      (.ok { user_id := user_id, broker_account := data.login, server := data.server,
             balance := info.balance, equity := info.equity, margin := info.margin,
             free_margin := info.freeMargin, currency := info.currency },
       Appwrite.update_user store user_id info.balance info.equity (some now),
       some cache2,
       evs ++ [.metaConnect data.login pw data.server data.platform,
               .updateUserDoc user_id])

/-- Body of the `POST /api/users/connect` handler (`main.py` lines 131–218),
before the enclosing `except Exception` clause.  `mt` is `metaapi_client`
(None when METAAPI_TOKEN is unset), `freshIv` the randomness consumed by
`encrypt_password`, `newId` the document id the store would generate, `now`
the current timestamp. -/
def connect_broker_body (g : Encryption.AEAD) (freshIv : List Nat)
    (mt : Option (MetaApi.MTEnv × MetaApi.SessionCache)) (store : Appwrite.Store)
    (newId now : String) (data : BrokerConnect) :
    Except PyErr AccountInfoResponse × Appwrite.Store × Option MetaApi.SessionCache
      × List OrchEvent :=
  match mt with
  | none =>
      (.error (.httpExc 503 "MetaAPI not configured. Set METAAPI_TOKEN environment variable."),
       store, none, [])
  | some (env, cache) =>
      match Appwrite.get_user_by_broker_account store data.login data.server with
      | some existing_user =>
          let pw :=
            match Encryption.decrypt_password g existing_user.encrypted_password
                existing_user.iv existing_user.auth_tag with
            | some p => p
            | none => data.password
          connect_and_update env cache store existing_user.id pw now data []
      | none =>
          let e := Encryption.encrypt_password g freshIv data.password
          let newUser : Appwrite.UserDoc :=
            { id := newId, broker_account := data.login,
              encrypted_password := e.encrypted, iv := e.iv, auth_tag := e.auth_tag,
              server := data.server, broker := data.broker,
              account_type := data.account_type, balance := 0, equity := 0,
              currency := "USD", last_login := some now }
          connect_and_update env cache (Appwrite.create_user store newUser) newId
            data.password now data [.createUserDoc data.login data.server]

/-- Model of the `POST /api/users/connect` handler `connect_broker`
(`main.py` lines 128–225): the body wrapped in
`except Exception as e: raise HTTPException(500, "Connection failed: "+str(e))`
— which also catches the handler's own `HTTPException(503)`. -/
def connect_broker (g : Encryption.AEAD) (freshIv : List Nat)
    (mt : Option (MetaApi.MTEnv × MetaApi.SessionCache)) (store : Appwrite.Store)
    (newId now : String) (data : BrokerConnect) :
    Except PyErr AccountInfoResponse × Appwrite.Store × Option MetaApi.SessionCache
      × List OrchEvent :=
  match connect_broker_body g freshIv mt store newId now data with
  | (res, store2, cache2, evs) => (catchAll500 "Connection failed: " res, store2, cache2, evs)

/-- Python dict subscription `user[k]`: the value, or a raised `KeyError`. -/
def docGet (d : Appwrite.Doc) (k : String) : Except PyErr Appwrite.JVal :=
  match d.lookup k with
  | some v => .ok v
  | none => .error (.keyError k)

/-- Model of the `GET /api/users/{user_id}` handler `get_user` (`main.py`
lines 227–247).  It has no `try`/`except`: a `KeyError` while reading user
fields propagates to the framework's catch-all handler. -/
def get_user (outcome : Except String Appwrite.Doc) (user_id : String) :
    Except PyErr UserResponse :=
  match Appwrite.get_user_by_id outcome with
  | none => .error (.httpExc 404 "User not found")
  | some user =>
      if user.isEmpty then .error (.httpExc 404 "User not found")
      else
        (do
          let idv ← docGet user "$id"
          let ba ← docGet user "broker_account"
          let sv ← docGet user "server"
          let br ← docGet user "broker"
          let acct ← docGet user "account_type"
          let bal ← docGet user "balance"
          let eqv ← docGet user "equity"
          let cur ← docGet user "currency"
          pure { id := idv, broker_account := ba, server := sv, broker := br,
                 account_type := acct, balance := bal, equity := eqv,
                 currency := cur, last_login := user.lookup "last_login" })

/-- Model of the `GET /api/users/{user_id}/account` handler `get_account_info`
(`main.py` lines 249–304).  The inner `except` around the live MetaAPI call
falls back to the cached user fields with a normal (200) return; the outer
`except Exception` converts any other exception — including the handler's own
404/503 `HTTPException`s — into a 500. -/
def get_account_info (mt : Option (MetaApi.MTEnv × MetaApi.SessionCache))
    (store : Appwrite.Store) (user_id : String) :
    Except PyErr AccountInfoResponse × Appwrite.Store :=
  match
    (match store.users.find? (fun u => u.id == user_id) with
     | none => (.error (.httpExc 404 "User not found"), store)
     | some user =>
         match mt with
         | none => (.error (.httpExc 503 "MetaAPI not configured"), store)
         | some (env, cache) =>
             match (MetaApi.get_account_info env cache user.broker_account).1 with
             | .ok info =>
                 (.ok { user_id := user_id, broker_account := user.broker_account,
                        server := user.server, balance := info.balance,
                        equity := info.equity, margin := info.margin,
                        free_margin := info.freeMargin, currency := info.currency },
                  Appwrite.update_user store user_id info.balance info.equity none)
             | .error _ =>
                 (.ok { user_id := user_id, broker_account := user.broker_account,
                        server := user.server, balance := user.balance,
                        equity := user.equity, margin := 0, free_margin := 0,
                        currency := user.currency },
                  store))
  with
  | (res, store2) => (catchAll500 "" res, store2)

/-- Model of the `POST /api/trade` handler `place_trade` (`main.py` lines
308–383): look up the user, execute through the facade, persist a Position
document with status "open", shape the response; any exception — including
the 503/404 `HTTPException`s — is converted to a 500 by the handler's
`except Exception` clause. -/
def place_trade (mt : Option (MetaApi.MTEnv × MetaApi.SessionCache))
    (store : Appwrite.Store) (newPosId now : String) (tr : TradeRequest) :
    Except PyErr TradeResponse × Appwrite.Store × List OrchEvent :=
  match
    (match mt with
     | none => (.error (.httpExc 503 "MetaAPI not configured"), store, [])
     | some (env, cache) =>
         match store.users.find? (fun u => u.id == tr.user_id) with
         | none => (.error (.httpExc 404 "User not found"), store, [])
         | some user =>
             match (MetaApi.place_trade env cache user.broker_account tr.symbol
                 tr.volume tr.type tr.stop_loss tr.take_profit).1 with
             | .error e => (.error (.pyExc (strOfMTError e)), store, [])
             | .ok result =>
                 let pos : Appwrite.PositionDoc :=
                   { id := newPosId, user_id := tr.user_id, symbol := tr.symbol,
                     type := pyCapitalize tr.type, volume := tr.volume,
                     open_price := result.openPrice.getD (result.price.getD 0),
                     current_price := result.openPrice.getD (result.price.getD 0),
                     stop_loss := tr.stop_loss, take_profit := tr.take_profit,
                     profit := 0, status := "open",
                     broker_position_id := result.positionId.getD (result.orderId.getD ""),
                     opened_at := now, closed_at := none }
                 (.ok { success := true, position_id := newPosId,
                        broker_order_id := result.orderId,
                        broker_position_id := result.positionId,
                        symbol := tr.symbol, volume := tr.volume,
                        price := (match result.openPrice with
                                  | some p => some p
                                  | none => result.price),
                        message := pyUpper tr.type ++ " order executed successfully" },
                  Appwrite.create_position store pos, [.createPositionDoc newPosId]))
  with
  | (res, store2, evs) => (catchAll500 "" res, store2, evs)

/-- The password each run forwarded to the trading backend, read off the
handler's event trace. -/
def forwardedPasswords (evs : List OrchEvent) : List String :=
  evs.filterMap (fun e =>
    match e with
    | .metaConnect _ p _ _ => some p
    | _ => none)


/-- Concrete fixtures for evaluating the handler models. -/
def userW : Appwrite.UserDoc :=
  { id := "u1", broker_account := "100200", encrypted_password := "AAAA",
    iv := "AAAA", auth_tag := "AAAA", server := "Demo-1", broker := "mt5",
    account_type := "demo", balance := 500, equity := 480, currency := "USD",
    last_login := some "t0" }

def storeW : Appwrite.Store := { users := [userW], positions := [] }

def cacheW : MetaApi.SessionCache := [("100200", { account := MetaApi.okReg })]

def trW : TradeRequest :=
  { user_id := "u1", symbol := "EURUSD", volume := 1, type := "buy",
    stop_loss := none, take_profit := none }

def dataW : BrokerConnect :=
  { login := "100200", password := "pw-A", server := "Demo-1", broker := "mt5",
    account_type := "demo", platform := "mt5" }

def dataW2 : BrokerConnect := { dataW with password := "pw-B" }

def userC9 : Appwrite.UserDoc :=
  { userW with
    encrypted_password :=
      (Encryption.encrypt_password Encryption.toyAEAD [1, 2] "storedpw").encrypted,
    iv := (Encryption.encrypt_password Encryption.toyAEAD [1, 2] "storedpw").iv,
    auth_tag := (Encryption.encrypt_password Encryption.toyAEAD [1, 2] "storedpw").auth_tag }

def storeC9 : Appwrite.Store := { users := [userC9], positions := [] }

end Main

-- ========================= THEOREMS =========================

namespace Encryption

theorem charSextet_sextetChar : ∀ n, n < 64 → charSextet (sextetChar n) = some n := by decide

theorem sextetChar_ne_pad : ∀ n, n < 64 → ¬ sextetChar n = '=' := by decide

/-- Base64 round-trip on byte lists. -/
theorem b64decode_b64encode (l : List Nat) (hl : ∀ b ∈ l, b < 256) :
    b64decode (b64encode l) = some l := by
  induction l using b64encode.induct with
  | case1 a b c rest ih =>
      have ha : a < 256 := hl a (by simp)
      have hb : b < 256 := hl b (by simp)
      have hc : c < 256 := hl c (by simp)
      have e0 := charSextet_sextetChar (a / 4) (by omega)
      have e1 := charSextet_sextetChar (a % 4 * 16 + b / 16) (by omega)
      have e2 := charSextet_sextetChar (b % 16 * 4 + c / 64) (by omega)
      have e3 := charSextet_sextetChar (c % 64) (by omega)
      have n2 := sextetChar_ne_pad (b % 16 * 4 + c / 64) (by omega)
      have n3 := sextetChar_ne_pad (c % 64) (by omega)
      have ihr := ih (fun x hx => hl x (by simp [hx]))
      simp [b64encode, b64decode, e0, e1, e2, e3, n2, n3, ihr]
      omega
  | case2 a b =>
      have ha : a < 256 := hl a (by simp)
      have hb : b < 256 := hl b (by simp)
      have e0 := charSextet_sextetChar (a / 4) (by omega)
      have e1 := charSextet_sextetChar (a % 4 * 16 + b / 16) (by omega)
      have e2 := charSextet_sextetChar (b % 16 * 4) (by omega)
      have n2 := sextetChar_ne_pad (b % 16 * 4) (by omega)
      simp [b64encode, b64decode, e0, e1, e2, n2]
      omega
  | case3 a =>
      have ha : a < 256 := hl a (by simp)
      have e0 := charSextet_sextetChar (a / 4) (by omega)
      have e1 := charSextet_sextetChar (a % 4 * 16) (by omega)
      simp [b64encode, b64decode, e0, e1]
      omega
  | case4 => rfl

theorem char_toNat_lt (c : Char) : c.toNat < 1114112 := by
  have h := c.valid
  simp [UInt32.isValidChar, Nat.isValidChar] at h
  have : c.toNat = c.val.toNat := rfl
  omega

theorem decBytes_encBytes (cs : List Char) : decBytes (encBytes cs) = some cs := by
  induction cs with
  | nil => rfl
  | cons c cs ih =>
      have hlt := char_toNat_lt c
      have hval : c.toNat / 65536 * 65536 + c.toNat / 256 % 256 * 256 + c.toNat % 256 = c.toNat := by
        omega
      simp [encBytes, charBytes, decBytes, ih, hval, Char.ofNat_toNat]

theorem encBytes_lt (cs : List Char) : ∀ x ∈ encBytes cs, x < 256 := by
  induction cs with
  | nil => simp [encBytes]
  | cons c cs ih =>
      intro x hx
      have hlt := char_toNat_lt c
      rcases List.mem_append.mp hx with h | h
      · simp [charBytes] at h
        rcases h with h | h | h <;> omega
      · exact ih x h

theorem toyAEAD_correct : toyAEAD.Correct where
  roundtrip := by
    intro iv pt
    simp [toyAEAD, decBytes_encBytes]
  ct_bytes := by
    intro iv pt x hx
    exact encBytes_lt pt.data x hx
  tag_bytes := by
    intro iv pt x hx
    simp [toyAEAD] at hx

/-- C1: for every password string P, decrypting the three base64-encoded
outputs (ciphertext, iv, auth_tag) of `encrypt_password P` with
`decrypt_password` returns exactly P, for any AEAD primitive meeting the
AEAD contract and any random IV made of bytes. -/
theorem c1_encrypt_then_decrypt (g : AEAD) (hg : g.Correct) (iv : List Nat)
    (hiv : ∀ x ∈ iv, x < 256) (P : String) :
    decrypt_password g (encrypt_password g iv P).encrypted
      (encrypt_password g iv P).iv (encrypt_password g iv P).auth_tag = some P := by
  unfold encrypt_password decrypt_password
  simp only
  rw [b64decode_b64encode _ (hg.ct_bytes iv P), b64decode_b64encode _ hiv,
    b64decode_b64encode _ (hg.tag_bytes iv P)]
  exact hg.roundtrip iv P

/-- C1 witness: the round-trip theorem applied to the concrete AEAD model, a
concrete 16-byte IV and the concrete password "hunter2". -/
theorem c1_encrypt_then_decrypt_witness :
    (∀ x ∈ ([0, 1, 2, 3, 4, 5, 6, 7, 8, 9, 10, 11, 12, 13, 14, 15] : List Nat), x < 256) ∧
    decrypt_password toyAEAD
      (encrypt_password toyAEAD [0, 1, 2, 3, 4, 5, 6, 7, 8, 9, 10, 11, 12, 13, 14, 15] "hunter2").encrypted
      (encrypt_password toyAEAD [0, 1, 2, 3, 4, 5, 6, 7, 8, 9, 10, 11, 12, 13, 14, 15] "hunter2").iv
      (encrypt_password toyAEAD [0, 1, 2, 3, 4, 5, 6, 7, 8, 9, 10, 11, 12, 13, 14, 15] "hunter2").auth_tag
      = some "hunter2" :=
  ⟨by decide, c1_encrypt_then_decrypt toyAEAD toyAEAD_correct _ (by decide) "hunter2"⟩

end Encryption

namespace MetaApi

/-- Helper: a failed `connect_rest` leaves the cache untouched and reports the
upstream cause inside the wrapped message. -/
theorem connect_rest_error (env : MTEnv) (cache cache2 : SessionCache) (login m : String)
    (account : RegAccount) (evs evs2 : List MTEvent)
    (h : connect_rest env cache login account evs = (.error m, cache2, evs2)) :
    cache2 = cache ∧ ∃ cause, m = "MetaAPI connection failed: " ++ cause := by
  unfold connect_rest at h
  repeat' split at h
  all_goals injection h with h1 h2
  all_goals injection h2 with h2a h2b
  all_goals try (injection h1 with hm; exact ⟨h2a.symm, _, hm.symm⟩)
  all_goals injection h1

/-- C3: if any step of the connect sequence fails, `connect_account` returns
the raised `ConnectionError` message wrapping the upstream cause, and the
session cache — in particular the entry for that login — is exactly what it
was before the call. -/
theorem c3_connect_failure_caches_nothing (env : MTEnv) (cache cache2 : SessionCache)
    (login password server platform m : String) (evs : List MTEvent)
    (h : connect_account env cache login password server platform = (.error m, cache2, evs)) :
    cache2 = cache ∧ ∃ cause, m = "MetaAPI connection failed: " ++ cause := by
  unfold connect_account at h
  repeat' split at h
  all_goals try exact connect_rest_error _ _ _ _ _ _ _ _ h
  all_goals injection h with h1 h2
  all_goals injection h2 with h2a h2b
  all_goals injection h1 with hm
  all_goals exact ⟨h2a.symm, _, hm.symm⟩

/-- C3 witness: the theorem applied to a run whose registry lookup fails. -/
theorem c3_connect_failure_caches_nothing_witness :
    ([] : SessionCache) = [] ∧
    ∃ cause, "MetaAPI connection failed: boom" = "MetaAPI connection failed: " ++ cause :=
  c3_connect_failure_caches_nothing envFailAtStart [] [] "100200" "pw" "Demo-1" "mt5"
    "MetaAPI connection failed: boom" [.getAccountsCall] rfl

/-- Helper: a successful `connect_rest` caches the session under the login key. -/
theorem connect_rest_ok (env : MTEnv) (cache cache2 : SessionCache) (login : String)
    (account : RegAccount) (evs evs2 : List MTEvent) (info : ConnectInfo)
    (h : connect_rest env cache login account evs = (.ok info, cache2, evs2)) :
    cache2 = (login, { account := account }) :: cache := by
  unfold connect_rest at h
  repeat' split at h
  all_goals injection h with h1 h2
  all_goals injection h2 with h2a h2b
  all_goals first
    | exact h2a.symm
    | injection h1

/-- Helper: a successful `connect_account` caches a session under the login key. -/
theorem connect_account_ok (env : MTEnv) (cache cache2 : SessionCache)
    (login password server platform : String) (evs : List MTEvent) (info : ConnectInfo)
    (h : connect_account env cache login password server platform = (.ok info, cache2, evs)) :
    ∃ s, cache2 = (login, s) :: cache := by
  unfold connect_account at h
  repeat' split at h
  all_goals try exact ⟨_, connect_rest_ok _ _ _ _ _ _ _ _ h⟩
  all_goals injection h with h1 h2
  all_goals injection h1

/-- C2: once a successful `connect_account` for login L has populated the
session cache, a subsequent `place_trade` for L leaves the session cache
unchanged, issues none of the connect-sequence SDK calls (in particular no
duplicate account creation), and never fails with the not-connected error:
it only reads the cached connection. -/
theorem c2_session_reuse (env0 env : MTEnv) (cache0 cache1 : SessionCache)
    (login password server platform symbol action : String) (volume : Int)
    (sl tp : Option Int) (info : ConnectInfo) (evs : List MTEvent)
    (h : connect_account env0 cache0 login password server platform = (.ok info, cache1, evs)) :
    (place_trade env cache1 login symbol volume action sl tp).2.1 = cache1 ∧
    (∀ e ∈ (place_trade env cache1 login symbol volume action sl tp).2.2,
        isSetupEvent e = false) ∧
    (∀ m, (place_trade env cache1 login symbol volume action sl tp).1
        ≠ .error (.notConnected m)) := by
  obtain ⟨s, hc⟩ := connect_account_ok _ _ _ _ _ _ _ _ _ h
  have hlook : cache1.lookup login = some s := by
    rw [hc]; simp [List.lookup]
  refine ⟨?_, ?_, ?_⟩ <;>
    · simp only [place_trade, hlook]
      repeat' split
      all_goals simp [isSetupEvent]

/-- C2 witness: the theorem applied after a concrete successful connect. -/
theorem c2_session_reuse_witness :
    (place_trade envAllOk [("100200", { account := okReg })] "100200" "EURUSD" 1 "buy"
        none none).2.1 = [("100200", { account := okReg })] ∧
    (place_trade envAllOk [("100200", { account := okReg })] "100200" "EURUSD" 1 "buy"
        none none).1 ≠ .error (.notConnected "Account not connected") :=
  ⟨(c2_session_reuse envAllOk envAllOk [] [("100200", { account := okReg })]
      "100200" "pw" "Demo-1" "mt5" "EURUSD" "buy" 1 none none
      { balance := 1000, equity := 995, margin := 10, freeMargin := 985,
        currency := "USD", leverage := 100, name := "Demo" }
      [.getAccountsCall, .deployCall, .waitDeployedCall, .waitConnectedCall,
       .rpcConnectCall, .waitSynchronizedCall, .accountInfoCall] rfl).1,
   (c2_session_reuse envAllOk envAllOk [] [("100200", { account := okReg })]
      "100200" "pw" "Demo-1" "mt5" "EURUSD" "buy" 1 none none
      { balance := 1000, equity := 995, margin := 10, freeMargin := 985,
        currency := "USD", leverage := 100, name := "Demo" }
      [.getAccountsCall, .deployCall, .waitDeployedCall, .waitConnectedCall,
       .rpcConnectCall, .waitSynchronizedCall, .accountInfoCall] rfl).2.2
      "Account not connected"⟩

/-- C4: each trade-facade operation called for a login with no cached session
fails with its not-connected error, touches neither the cache nor the SDK;
each operation issues at most one SDK call (no retry); with a cached session,
any failure is the propagated upstream error, never the not-connected error;
and the two error kinds are distinct. -/
theorem c4_facade_errors (env : MTEnv) (cache : SessionCache)
    (login symbol action posId : String) (volume : Int) (sl tp : Option Int) :
    (cache.lookup login = none →
      place_trade env cache login symbol volume action sl tp
        = (.error (.notConnected "Account not connected"), cache, []) ∧
      close_position env cache login posId
        = (.error (.notConnected "Account not connected"), cache, []) ∧
      get_positions env cache login
        = (.error (.notConnected "Account not connected"), cache, []) ∧
      get_account_info env cache login
        = (.error (.notConnected "Account not connected. Please connect first."), cache, [])) ∧
    ((place_trade env cache login symbol volume action sl tp).2.2.length ≤ 1 ∧
     (close_position env cache login posId).2.2.length ≤ 1 ∧
     (get_positions env cache login).2.2.length ≤ 1 ∧
     (get_account_info env cache login).2.2.length ≤ 1) ∧
    (∀ s, cache.lookup login = some s →
      (∀ e, (place_trade env cache login symbol volume action sl tp).1 = .error e →
          ∃ m, e = .upstream m) ∧
      (∀ e, (close_position env cache login posId).1 = .error e → ∃ m, e = .upstream m) ∧
      (∀ e, (get_positions env cache login).1 = .error e → ∃ m, e = .upstream m) ∧
      (∀ e, (get_account_info env cache login).1 = .error e → ∃ m, e = .upstream m)) ∧
    (∀ m m', MTError.notConnected m ≠ MTError.upstream m') := by
  refine ⟨?_, ?_, ?_, ?_⟩
  · intro hnone
    refine ⟨?_, ?_, ?_, ?_⟩ <;>
      simp [place_trade, close_position, get_positions, get_account_info, hnone]
  · refine ⟨?_, ?_, ?_, ?_⟩ <;>
      · simp only [place_trade, close_position, get_positions, get_account_info]
        repeat' split
        all_goals simp
  · intro s hs
    refine ⟨?_, ?_, ?_, ?_⟩ <;>
      · intro e he
        simp only [place_trade, close_position, get_positions, get_account_info, hs] at he
        repeat' split at he
        all_goals simp_all
        all_goals exact ⟨_, he.symm⟩
  · intro m m' hmm
    cases hmm

/-- C4 witness: facade operations evaluated against the empty cache, and the
upstream-propagation clause evaluated against a failing order call. -/
theorem c4_facade_errors_witness :
    place_trade envTradeFail [] "100200" "EURUSD" 1 "buy" none none
      = (.error (.notConnected "Account not connected"), [], []) ∧
    get_account_info envTradeFail [] "100200"
      = (.error (.notConnected "Account not connected. Please connect first."), [], []) ∧
    (∃ m, MTError.upstream "bad" = MTError.upstream m) :=
  ⟨((c4_facade_errors envTradeFail [] "100200" "EURUSD" "buy" "p1" 1 none none).1
      (by decide)).1,
   ((c4_facade_errors envTradeFail [] "100200" "EURUSD" "buy" "p1" 1 none none).1
      (by decide)).2.2.2,
   (((c4_facade_errors envTradeFail [("100200", { account := okReg })] "100200"
        "EURUSD" "buy" "p1" 1 none none).2.2.1 { account := okReg } (by decide)).1
      (.upstream "bad") rfl)⟩

end MetaApi

namespace Main

/-- C5 (divergence): when the trading backend is unconfigured
(`metaapi_client is None`), `POST /api/users/connect` responds 500, not 503:
the handler raises `HTTPException(503)` inside its own `try`, and the
`except Exception` clause catches it and re-raises it as
`HTTPException(500, "Connection failed: 503: ...")`. -/
theorem c5_unconfigured_returns_500 (g : Encryption.AEAD) (freshIv : List Nat)
    (store : Appwrite.Store) (newId now : String) (data : BrokerConnect) :
    (connect_broker g freshIv none store newId now data).1
      = .error (.httpExc 500
          "Connection failed: 503: MetaAPI not configured. Set METAAPI_TOKEN environment variable.") ∧
    finalStatus (connect_broker g freshIv none store newId now data).1 = 500 :=
  ⟨rfl, rfl⟩

/-- C6: for a user whose stored document is well-formed, when the live
trading-backend call inside `GET /api/users/{id}/account` fails, the endpoint
returns HTTP 200 with the last-persisted balance and equity from the user
document, and leaves the store untouched. -/
theorem c6_account_fallback (env : MetaApi.MTEnv) (cache : MetaApi.SessionCache)
    (store : Appwrite.Store) (user_id : String) (u : Appwrite.UserDoc)
    (e : MetaApi.MTError)
    (hu : store.users.find? (fun v => v.id == user_id) = some u)
    (hfail : (MetaApi.get_account_info env cache u.broker_account).1 = .error e) :
    (get_account_info (some (env, cache)) store user_id).1
      = .ok { user_id := user_id, broker_account := u.broker_account,
              server := u.server, balance := u.balance, equity := u.equity,
              margin := 0, free_margin := 0, currency := u.currency } ∧
    finalStatus (get_account_info (some (env, cache)) store user_id).1 = 200 ∧
    (get_account_info (some (env, cache)) store user_id).2 = store := by
  refine ⟨?_, ?_, ?_⟩ <;> simp [get_account_info, hu, hfail, catchAll500, finalStatus]

/-- C6 witness: the fallback theorem applied to a concrete store and a
concrete failing live call (no session cached for the login). -/
theorem c6_account_fallback_witness :
    (get_account_info (some (MetaApi.envAllOk, [])) storeW "u1").1
      = .ok { user_id := "u1", broker_account := "100200", server := "Demo-1",
              balance := 500, equity := 480, margin := 0, free_margin := 0,
              currency := "USD" } ∧
    finalStatus (get_account_info (some (MetaApi.envAllOk, [])) storeW "u1").1 = 200 ∧
    (get_account_info (some (MetaApi.envAllOk, [])) storeW "u1").2 = storeW :=
  c6_account_fallback MetaApi.envAllOk [] storeW "u1" userW
    (.notConnected "Account not connected. Please connect first.") rfl rfl

/-- C7: when the broker execution succeeds, `POST /api/trade` persists
exactly one new Position document, with status "open", profit 0, and
open price equal to the fill price the execution result carries
(`openPrice`, falling back to `price`, then 0). -/
theorem c7_trade_persists_open_position (env : MetaApi.MTEnv)
    (cache : MetaApi.SessionCache) (store : Appwrite.Store) (newPosId now : String)
    (tr : TradeRequest) (u : Appwrite.UserDoc) (r : MetaApi.TradeResult)
    (hu : store.users.find? (fun v => v.id == tr.user_id) = some u)
    (hex : (MetaApi.place_trade env cache u.broker_account tr.symbol tr.volume tr.type
        tr.stop_loss tr.take_profit).1 = .ok r) :
    (place_trade (some (env, cache)) store newPosId now tr).2.1.positions
      = store.positions ++
        [{ id := newPosId, user_id := tr.user_id, symbol := tr.symbol,
           type := pyCapitalize tr.type, volume := tr.volume,
           open_price := r.openPrice.getD (r.price.getD 0),
           current_price := r.openPrice.getD (r.price.getD 0),
           stop_loss := tr.stop_loss, take_profit := tr.take_profit,
           profit := 0, status := "open",
           broker_position_id := r.positionId.getD (r.orderId.getD ""),
           opened_at := now, closed_at := none }] ∧
    (∀ fp, r.openPrice = some fp → r.openPrice.getD (r.price.getD 0) = fp) := by
  constructor
  · simp [place_trade, hu, hex, Appwrite.create_position]
  · intro fp hfp
    simp [hfp]

/-- C7 witness: a concrete trade against a cached session; the persisted
document is computed explicitly and the fill price is the broker's 10850. -/
theorem c7_trade_persists_open_position_witness :
    (place_trade (some (MetaApi.envAllOk, cacheW)) storeW "p9" "t1" trW).2.1.positions
      = [{ id := "p9", user_id := "u1", symbol := "EURUSD", type := "Buy",
           volume := 1, open_price := 10850, current_price := 10850,
           stop_loss := none, take_profit := none, profit := 0, status := "open",
           broker_position_id := "p1", opened_at := "t1", closed_at := none }] ∧
    MetaApi.okTrade.openPrice.getD (MetaApi.okTrade.price.getD 0) = 10850 :=
  ⟨(c7_trade_persists_open_position MetaApi.envAllOk cacheW storeW "p9" "t1" trW
      userW MetaApi.okTrade rfl rfl).1,
   (c7_trade_persists_open_position MetaApi.envAllOk cacheW storeW "p9" "t1" trW
      userW MetaApi.okTrade rfl rfl).2 10850 rfl⟩

end Main

namespace Main

/-- Helper: `update_user` patches fields of an existing document; it never
changes a document id or its (broker_account, server) pair, and adds no
document. -/
theorem update_user_preserves_keys (store : Appwrite.Store) (uid : String)
    (b e : Int) (ll : Option String) :
    (Appwrite.update_user store uid b e ll).users.map
        (fun v => (v.id, v.broker_account, v.server))
      = store.users.map (fun v => (v.id, v.broker_account, v.server)) := by
  cases store with
  | mk users positions =>
      simp only [Appwrite.update_user]
      induction users with
      | nil => rfl
      | cons u us ih =>
          simp only [List.map_cons, List.cons.injEq]
          refine ⟨?_, ih⟩
          split <;> rfl

/-- Helper: the connect-and-persist tail of the connect handler keeps every
user document key, emits exactly the metaConnect event (plus the balance
update on success), and reports the chosen user id in a success response. -/
theorem connect_and_update_spec (env : MetaApi.MTEnv) (cache : MetaApi.SessionCache)
    (store : Appwrite.Store) (user_id pw now : String) (data : BrokerConnect)
    (evs : List OrchEvent) :
    ((connect_and_update env cache store user_id pw now data evs).2.1.users.map
        (fun v => (v.id, v.broker_account, v.server))
      = store.users.map (fun v => (v.id, v.broker_account, v.server))) ∧
    ((connect_and_update env cache store user_id pw now data evs).2.2.2
        = evs ++ [.metaConnect data.login pw data.server data.platform] ∨
     (connect_and_update env cache store user_id pw now data evs).2.2.2
        = evs ++ [.metaConnect data.login pw data.server data.platform,
                  .updateUserDoc user_id]) ∧
    (∀ resp, (connect_and_update env cache store user_id pw now data evs).1 = .ok resp →
        resp.user_id = user_id) := by
  simp only [connect_and_update]
  split
  · refine ⟨rfl, .inl rfl, ?_⟩
    intro resp h
    cases h
  · rename_i info cache2 tr heq
    refine ⟨update_user_preserves_keys store user_id info.balance info.equity (some now),
            .inr rfl, ?_⟩
    intro resp h
    injection h with h
    rw [← h]

/-- C8: in sequential execution against a store answering lookups faithfully,
when a User document already exists for the (broker login, server) pair, a
second connect request with the same pair reuses the existing user's id in
the success response and creates no second User document: the list of
(id, broker_account, server) keys is preserved exactly, and no user-creation
store call is issued — so exactly-one-User-per-pair is preserved. -/
theorem c8_connect_reuses_existing_user (g : Encryption.AEAD) (freshIv : List Nat)
    (env : MetaApi.MTEnv) (cache : MetaApi.SessionCache) (store : Appwrite.Store)
    (newId now : String) (data : BrokerConnect) (u : Appwrite.UserDoc)
    (hu : Appwrite.get_user_by_broker_account store data.login data.server = some u) :
    ((connect_broker g freshIv (some (env, cache)) store newId now data).2.1.users.map
        (fun v => (v.id, v.broker_account, v.server))
      = store.users.map (fun v => (v.id, v.broker_account, v.server))) ∧
    (∀ l s, OrchEvent.createUserDoc l s
        ∉ (connect_broker g freshIv (some (env, cache)) store newId now data).2.2.2) ∧
    (∀ resp, (connect_broker g freshIv (some (env, cache)) store newId now data).1
        = .ok resp → resp.user_id = u.id) := by
  have hspec := connect_and_update_spec env cache store u.id
      (match Encryption.decrypt_password g u.encrypted_password u.iv u.auth_tag with
       | some p => p
       | none => data.password) now data []
  simp only [connect_broker, connect_broker_body, hu] at *
  refine ⟨hspec.1, ?_, ?_⟩
  · intro l s hmem
    rcases hspec.2.1 with htr | htr <;> rw [htr] at hmem <;> simp at hmem
  · intro resp h
    apply hspec.2.2
    cases hres : (connect_and_update env cache store u.id
        (match Encryption.decrypt_password g u.encrypted_password u.iv u.auth_tag with
         | some p => p
         | none => data.password) now data []).1 with
    | ok v =>
        rw [hres] at h
        simp only [catchAll500] at h
        exact h
    | error e =>
        rw [hres] at h
        simp only [catchAll500] at h
        cases h

/-- C8 witness: a second connect for the pair ("100200", "Demo-1") against a
store already holding that user keeps the user keys unchanged and issues no
user-creation call. -/
theorem c8_connect_reuses_existing_user_witness :
    ((connect_broker Encryption.toyAEAD [] (some (MetaApi.envAllOk, [])) storeW
        "u2" "t2" dataW).2.1.users.map (fun v => (v.id, v.broker_account, v.server))
      = [("u1", "100200", "Demo-1")]) ∧
    OrchEvent.createUserDoc "100200" "Demo-1"
      ∉ (connect_broker Encryption.toyAEAD [] (some (MetaApi.envAllOk, [])) storeW
          "u2" "t2" dataW).2.2.2 :=
  ⟨(c8_connect_reuses_existing_user Encryption.toyAEAD [] MetaApi.envAllOk []
      storeW "u2" "t2" dataW userW rfl).1,
   (c8_connect_reuses_existing_user Encryption.toyAEAD [] MetaApi.envAllOk []
      storeW "u2" "t2" dataW userW rfl).2.1 "100200" "Demo-1"⟩

end Main

namespace Main

/-- Helper: the connect tail forwards exactly one password to the trading
backend — the one it was given. -/
theorem connect_and_update_forwarded (env : MetaApi.MTEnv) (cache : MetaApi.SessionCache)
    (store : Appwrite.Store) (user_id pw now : String) (data : BrokerConnect)
    (evs : List OrchEvent) :
    forwardedPasswords (connect_and_update env cache store user_id pw now data evs).2.2.2
      = forwardedPasswords evs ++ [pw] := by
  simp only [connect_and_update]
  split <;> simp [forwardedPasswords, List.filterMap_append]

/-- C9: for two connect requests that differ only in the request-body
password, when a User document already exists for the (login, server) pair
and its stored password decrypts successfully, both runs forward the same
password to the trading backend — the decrypted stored one — and in fact the
two runs are identical in every observable (response, store, cache, events). -/
theorem c9_stored_password_wins (g : Encryption.AEAD) (freshIv : List Nat)
    (env : MetaApi.MTEnv) (cache : MetaApi.SessionCache) (store : Appwrite.Store)
    (newId now : String) (data1 data2 : BrokerConnect) (u : Appwrite.UserDoc)
    (pw : String)
    (hu : Appwrite.get_user_by_broker_account store data1.login data1.server = some u)
    (hdec : Encryption.decrypt_password g u.encrypted_password u.iv u.auth_tag = some pw)
    (hlogin : data2.login = data1.login) (hserver : data2.server = data1.server)
    (hbroker : data2.broker = data1.broker)
    (hacct : data2.account_type = data1.account_type)
    (hplat : data2.platform = data1.platform) :
    forwardedPasswords
        (connect_broker g freshIv (some (env, cache)) store newId now data1).2.2.2
      = [pw] ∧
    forwardedPasswords
        (connect_broker g freshIv (some (env, cache)) store newId now data2).2.2.2
      = [pw] ∧
    connect_broker g freshIv (some (env, cache)) store newId now data1
      = connect_broker g freshIv (some (env, cache)) store newId now data2 := by
  have heq : connect_and_update env cache store u.id pw now data2 []
      = connect_and_update env cache store u.id pw now data1 [] := by
    simp only [connect_and_update, hlogin, hserver, hplat]
  have hfw := connect_and_update_forwarded env cache store u.id pw now data1 []
  simp only [connect_broker, connect_broker_body, hlogin, hserver, hu, hdec, heq]
  refine ⟨?_, ?_, trivial⟩ <;> simpa using hfw

/-- C9 witness: two concrete requests differing only in the password field,
against a store whose document for the pair decrypts to "storedpw". -/
theorem c9_stored_password_wins_witness :
    forwardedPasswords
        (connect_broker Encryption.toyAEAD [] (some (MetaApi.envAllOk, [])) storeC9
          "u2" "t2" dataW).2.2.2
      = ["storedpw"] ∧
    forwardedPasswords
        (connect_broker Encryption.toyAEAD [] (some (MetaApi.envAllOk, [])) storeC9
          "u2" "t2" dataW2).2.2.2
      = ["storedpw"] ∧
    connect_broker Encryption.toyAEAD [] (some (MetaApi.envAllOk, [])) storeC9
        "u2" "t2" dataW
      = connect_broker Encryption.toyAEAD [] (some (MetaApi.envAllOk, [])) storeC9
          "u2" "t2" dataW2 :=
  c9_stored_password_wins Encryption.toyAEAD [] MetaApi.envAllOk [] storeC9
    "u2" "t2" dataW dataW2 userC9 "storedpw" rfl rfl rfl rfl rfl rfl rfl

/-- C10: when the document-store HTTP request fails at transport level,
`_make_request` returns the structured `{"error": ...}` payload and
`get_user_by_id` passes it through (never `None`), so
`GET /api/users/{user_id}` does not take the 404 "User not found" branch:
it fails with `KeyError('$id')` while reading user fields and surfaces as a
500 through the framework's catch-all handler. -/
theorem c10_transport_failure_is_500_not_404 (msg user_id : String) :
    Appwrite.make_request (.error msg) = [("error", .s msg)] ∧
    Appwrite.get_user_by_id (.error msg) ≠ none ∧
    get_user (.error msg) user_id = .error (.keyError "$id") ∧
    finalStatus (get_user (.error msg) user_id) = 500 ∧
    get_user (.error msg) user_id ≠ .error (.httpExc 404 "User not found") := by
  have h3 : get_user (.error msg) user_id = .error (.keyError "$id") := rfl
  refine ⟨rfl, by simp [Appwrite.get_user_by_id], h3, ?_, ?_⟩
  · rw [h3]
    rfl
  · rw [h3]
    simp

end Main
